import Mathlib

/-!
Shallow embedding of the floorplans calibration / composition engine.

Sources:
- the global `RenderableImage` interface;
- `src/components/ImageEditor.vue` (two-stage calibration: crop, then scale);
- `src/components/AddImageHandler.vue` and the scene-composer component
  concatenated with it (camera, hit-testing, z-order, toolbar operations,
  persistence calls).

Numbers are modelled as exact rationals (`ℚ`); the one irreducibly real
operation, `Math.sqrt` in the save handler, is modelled over `ℝ` with
`Real.sqrt`. Event-handler side effects that matter to the claims
(`saveState()` persistence calls, `console.error` logging) are modelled as
explicit booleans returned alongside the new state.
-/

namespace Floorplans

/-- The global `RenderableImage` interface. The opaque decoded-image handle
(`HTMLImageElement`) is identified by its source string, which is all the
engine ever reads from it besides natural dimensions (folded into the crop
fields here). -/
structure RenderableImage where
  image : String
  x : ℚ
  y : ℚ
  cropOffsetX : ℚ
  cropOffsetY : ℚ
  cropWidth : ℚ
  cropHeight : ℚ
  pixelsPerMetre : ℚ
  label : Option String := none
  id : ℤ
  rotationDegrees : ℤ
  opacity : ℚ
deriving DecidableEq, Repr, Inhabited

/-- `type CoordinateSystem = "image" | "canvas" | "screen"` from ImageEditor.vue. -/
inductive CoordinateSystem
  | image
  | canvas
  | screen
deriving DecidableEq, Repr

/-- Tagged coordinate from ImageEditor.vue: `{system, x, y}`. -/
structure Coordinate where
  system : CoordinateSystem
  x : ℚ
  y : ℚ
deriving DecidableEq, Repr

/-- Result of `snapLine`, together with whether the coordinate-system-mismatch
branch ran `console.error` (the only logging in that function). -/
structure SnapResult where
  coord : Coordinate
  loggedMismatch : Bool
deriving DecidableEq, Repr

/-- `snapLine` from ImageEditor.vue. The module-level `shiftPressed` flag is
passed explicitly. `if (shiftPressed || !start) return cursor`; on a
coordinate-system mismatch it logs and returns the cursor unmodified;
otherwise it snaps horizontally when `|dx| > |dy|`, else vertically. -/
def snapLine (shiftPressed : Bool) (start? : Option Coordinate)
    (cursor : Coordinate) : SnapResult :=
  if shiftPressed then ⟨cursor, false⟩
  else
    match start? with
    | none => ⟨cursor, false⟩
    | some start =>
      if start.system ≠ cursor.system then ⟨cursor, true⟩
      else
        let dx := cursor.x - start.x
        let dy := cursor.y - start.y
        if |dx| > |dy| then ⟨⟨cursor.system, cursor.x, start.y⟩, false⟩
        else ⟨⟨cursor.system, start.x, cursor.y⟩, false⟩

/-- `type CropHandle = "xMin" | "xMax" | "yMin" | "yMax"`. -/
inductive CropHandle
  | xMin
  | xMax
  | yMin
  | yMax
deriving DecidableEq, Repr

/-- The crop-stage interaction state from ImageEditor.vue. -/
structure CropState where
  xMin : ℚ
  xMax : ℚ
  yMin : ℚ
  yMax : ℚ
  currentCropHandles : List CropHandle
deriving DecidableEq, Repr

/-- The crop-stage branch of `handleMouseMove` in ImageEditor.vue while
handles are held: each held bound is updated from
`mouseLocation / imageToCanvasScaleFactor()`, clamped exactly as the source
does — `xMin := min(mx, xMax)`, `xMax := max(mx, yMin)`,
`yMin := min(my, xMax)`, `yMax := max(my, yMin)` — with each assignment
reading the bounds as already updated by the assignments before it, in
source order. `scaleFactor` is `imageToCanvasScaleFactor()`; `mouseX`,
`mouseY` are the canvas-space pointer position. With no held handles the
bounds are untouched (the handler only recomputes the cursor affordance). -/
def cropMouseMove (scaleFactor : ℚ) (st : CropState) (mouseX mouseY : ℚ) :
    CropState :=
  if st.currentCropHandles.isEmpty then st
  else
    let s1 :=
      if CropHandle.xMin ∈ st.currentCropHandles then
        { st with xMin := min (mouseX / scaleFactor) st.xMax }
      else st
    let s2 :=
      if CropHandle.xMax ∈ s1.currentCropHandles then
        { s1 with xMax := max (mouseX / scaleFactor) s1.yMin }
      else s1
    let s3 :=
      if CropHandle.yMin ∈ s2.currentCropHandles then
        { s2 with yMin := min (mouseY / scaleFactor) s2.xMax }
      else s2
    if CropHandle.yMax ∈ s3.currentCropHandles then
      { s3 with yMax := max (mouseY / scaleFactor) s3.yMin }
    else s3

/-- The scale-stage state from ImageEditor.vue. The source names the second
point `end`, a Lean keyword, rendered here as `endPoint`. -/
structure ScaleState where
  start : Option Coordinate := none
  endPoint : Option Coordinate := none
  length : Option ℚ := none
deriving DecidableEq, Repr

/-- The editor's tagged-union `State = CropState | ScaleState`. -/
inductive EditorState
  | crop (c : CropState)
  | scale (s : ScaleState)
deriving DecidableEq, Repr

/-- The `saveDisabled` computed property: disabled unless the stage is
`scale` and `start`, `end` and `length` are all defined (the length check is
`== undefined`; a value of 0 passes). -/
def saveDisabled (st : EditorState) : Bool :=
  match st with
  | .crop _ => true
  | .scale s => s.start.isNone || s.endPoint.isNone || s.length.isNone

/-- The `handleSave` handler: returns `none` when it bails out (wrong stage,
or any of start/end/length undefined), otherwise the `pixelsPerMetre` it
writes onto the emitted record before calling `onSave`:
`Math.sqrt(xDist*xDist + yDist*yDist) / length`. -/
noncomputable def handleSave (st : EditorState) : Option ℝ :=
  match st with
  | .crop _ => none
  | .scale s =>
    match s.start, s.endPoint, s.length with
    | some a, some b, some l =>
      let xDist : ℝ := (b.x : ℝ) - (a.x : ℝ)
      let yDist : ℝ := (b.y : ℝ) - (a.y : ℝ)
      some (Real.sqrt (xDist * xDist + yDist * yDist) / (l : ℝ))
    | _, _, _ => none

/-- Axis-aligned bounding box in world metres. -/
structure BoundingBox where
  xMin : ℚ
  xMax : ℚ
  yMin : ℚ
  yMax : ℚ
deriving DecidableEq, Repr

/-- `getImageBoundingBox` from the scene composer: for rotations 0/180 the
box is position plus the unrotated display size
(`cropWidth / pixelsPerMetre` by `cropHeight / pixelsPerMetre`); any other
rotation takes the center-pivoted width/height swap branch. -/
def getImageBoundingBox (image : RenderableImage) : BoundingBox :=
  let originalWidth := image.cropWidth / image.pixelsPerMetre
  let originalHeight := image.cropHeight / image.pixelsPerMetre
  if image.rotationDegrees = 0 ∨ image.rotationDegrees = 180 then
    { xMin := image.x
      xMax := image.x + originalWidth
      yMin := image.y
      yMax := image.y + originalHeight }
  else
    { xMin := image.x + originalWidth / 2 - originalHeight / 2
      xMax := image.x + originalWidth / 2 + originalHeight / 2
      yMin := image.y + originalHeight / 2 - originalWidth / 2
      yMax := image.y + originalHeight / 2 + originalWidth / 2 }

/-- The hit predicate inside `handleMouseDown`'s `findIndex`: all four
bounding-box comparisons are inclusive. -/
def bboxContainsPoint (b : BoundingBox) (px py : ℚ) : Bool :=
  decide (b.xMin ≤ px) && decide (b.xMax ≥ px) &&
    decide (b.yMin ≤ py) && decide (b.yMax ≥ py)

/-- The scene composer's persistent state: the ordered image sequence
(index 0 topmost), the selection, and the camera (`renderOrigin` in world
metres, `canvasPixelsPerMeter` zoom). Transient drag trackers live outside
this state and are not modelled. -/
structure ComposerState where
  images : List RenderableImage
  selectedImage : Option RenderableImage
  renderOrigin : ℚ × ℚ
  canvasPixelsPerMeter : ℚ
deriving DecidableEq, Repr

/-- JavaScript `Array.prototype.findIndex`, with the miss case `-1` rendered
as `none`. -/
def jsFindIndex {α : Type} (p : α → Bool) : List α → Option Nat
  | [] => none
  | a :: l => if p a then some 0 else (jsFindIndex p l).map (· + 1)

/-- Conversion of a device-pixel pointer position (already offset by the
canvas bounding rect) to world metres, as computed identically in
`handleMouseDown` and `handleMouseWheel`: `pos / canvasPixelsPerMeter +
renderOrigin`. -/
def pointerWorld (st : ComposerState) (pos : ℚ × ℚ) : ℚ × ℚ :=
  (pos.1 / st.canvasPixelsPerMeter + st.renderOrigin.1,
   pos.2 / st.canvasPixelsPerMeter + st.renderOrigin.2)

/-- The predicate passed to `findIndex` in the composer's `handleMouseDown`:
does the image's bounding box contain the pointer's world position? -/
def hitPred (st : ComposerState) (pos : ℚ × ℚ) (image : RenderableImage) :
    Bool :=
  bboxContainsPoint (getImageBoundingBox image) (pointerWorld st pos).1
    (pointerWorld st pos).2

/-- The primary-button (`e.button === 0`) branch of the composer's
`handleMouseDown`. `pos` is the pointer position relative to the canvas.
The returned boolean records whether `saveState()` ran (it runs only when a
hit image is promoted from a nonzero index). Misses clear the selection;
a hit becomes the selection and, when not already topmost, is spliced out
and unshifted to index 0. -/
def handleMouseDown0 (st : ComposerState) (pos : ℚ × ℚ) :
    ComposerState × Bool :=
  match jsFindIndex (hitPred st pos) st.images with
  | none => ({ st with selectedImage := none }, false)
  | some imgIdx =>
    let img := st.images.getD imgIdx default
    if imgIdx = 0 then ({ st with selectedImage := some img }, false)
    else
      ({ st with
          images := img :: st.images.eraseIdx imgIdx
          selectedImage := some img }, true)

/-- `addImageCallback`: unshift the new image and `saveState()`. -/
def addImageCallback (st : ComposerState) (image : RenderableImage) :
    ComposerState × Bool :=
  ({ st with images := image :: st.images }, true)

/-- `handleMouseUp`: clears the transient drag trackers (not modelled) and
always calls `saveState()`. -/
def handleMouseUp (st : ComposerState) : ComposerState × Bool :=
  (st, true)

/-- In the source, `selectedImage.value` aliases the very object stored in
`images`, so a field write through the selection mutates the list entry.
With immutable values this is modelled by rewriting every list entry whose
`id` matches the selection and the selection copy itself, coherently. -/
def updateSelectedImage (st : ComposerState)
    (f : RenderableImage → RenderableImage) : ComposerState :=
  match st.selectedImage with
  | none => st
  | some sel =>
    { st with
      images := st.images.map fun img => if img.id = sel.id then f img else img
      selectedImage := some (f sel) }

/-- `handleRotateLeft`: `rotationDegrees := (rotationDegrees + 270) % 360` on
the selected image; no persistence call. -/
def handleRotateLeft (st : ComposerState) : ComposerState × Bool :=
  (updateSelectedImage st
    (fun img => { img with rotationDegrees := (img.rotationDegrees + 270) % 360 }),
   false)

/-- `handleRotateRight`: `rotationDegrees := (rotationDegrees + 90) % 360` on
the selected image; no persistence call. -/
def handleRotateRight (st : ComposerState) : ComposerState × Bool :=
  (updateSelectedImage st
    (fun img => { img with rotationDegrees := (img.rotationDegrees + 90) % 360 }),
   false)

/-- `handleOpacityChange`: writes the input's value onto the selected image's
`opacity`; no persistence call. -/
def handleOpacityChange (st : ComposerState) (value : ℚ) :
    ComposerState × Bool :=
  (updateSelectedImage st (fun img => { img with opacity := value }), false)

/-- `handleRename`: `label := prompt(...) || undefined` — a cancelled prompt
(`null`) or empty string becomes `undefined`; no persistence call. -/
def handleRename (st : ComposerState) (input : Option String) :
    ComposerState × Bool :=
  (updateSelectedImage st
    (fun img =>
      { img with
        label :=
          match input with
          | none => none
          | some s => if s = "" then none else some s }),
   false)

/-- `handleDelete`: `findIndex` on the selection's `id`, splice out that
index when found; the selection itself is never cleared, and no persistence
call is made. -/
def handleDelete (st : ComposerState) : ComposerState × Bool :=
  match st.selectedImage with
  | none => (st, false)
  | some sel =>
    match jsFindIndex (fun img => img.id == sel.id) st.images with
    | none => (st, false)
    | some idx => ({ st with images := st.images.eraseIdx idx }, false)

/-- `handleMouseWheel`: `multiplier` models `Math.pow(1.3, e.deltaY * -0.01)`
(always positive) and is passed in explicitly, the one transcendental the
handler uses. When a pointer position is known the origin is re-anchored
before `canvasPixelsPerMeter *= multiplier`. -/
def handleMouseWheel (st : ComposerState) (mousePos : Option (ℚ × ℚ))
    (multiplier : ℚ) : ComposerState :=
  match mousePos with
  | none =>
    { st with canvasPixelsPerMeter := st.canvasPixelsPerMeter * multiplier }
  | some m =>
    let mousePosMetres := pointerWorld st m
    { st with
      renderOrigin :=
        (mousePosMetres.1 - (mousePosMetres.1 - st.renderOrigin.1) / multiplier,
         mousePosMetres.2 - (mousePosMetres.2 - st.renderOrigin.2) / multiplier)
      canvasPixelsPerMeter := st.canvasPixelsPerMeter * multiplier }

/-! Concrete sample data used by the claim instances and witnesses. -/

/-- A crop state with a valid (non-inverted) rectangle and the `xMax` handle
held, as set up by a mouse-down near the right edge. -/
def cropStateEx : CropState :=
  { xMin := 50, xMax := 100, yMin := 10, yMax := 90,
    currentCropHandles := [CropHandle.xMax] }

/-- A placed image: 100x50 crop pixels at 10 px/m (so 10 m by 5 m), unrotated,
at the world origin. -/
def imgEx : RenderableImage :=
  { image := "plan.png", x := 0, y := 0, cropOffsetX := 0, cropOffsetY := 0,
    cropWidth := 100, cropHeight := 50, pixelsPerMetre := 10, label := none,
    id := 1, rotationDegrees := 0, opacity := 1 }

/-- A composer state with `imgEx` placed and selected. -/
def composerStateEx : ComposerState :=
  { images := [imgEx], selectedImage := some imgEx, renderOrigin := (0, 0),
    canvasPixelsPerMeter := 50 }

/-- The image for the §8 bounding-box instance: position (0,0), unrotated
display size 4x2 metres, rotated 90 degrees. -/
def imageEx90 : RenderableImage :=
  { image := "rotated.png", x := 0, y := 0, cropOffsetX := 0, cropOffsetY := 0,
    cropWidth := 4, cropHeight := 2, pixelsPerMetre := 1, label := none,
    id := 2, rotationDegrees := 90, opacity := 1 }

/-- The k-th sample image for the z-order instance: a 1x1 metre image at
world x = 10k, with id k. -/
def imgA (k : ℕ) : RenderableImage :=
  { image := "plan.png", x := 10 * (k : ℚ), y := 0, cropOffsetX := 0,
    cropOffsetY := 0, cropWidth := 1, cropHeight := 1, pixelsPerMetre := 1,
    label := none, id := (k : ℤ), rotationDegrees := 0, opacity := 1 }

/-- Five placed images in order, nothing selected, identity camera. -/
def fiveImageStateEx : ComposerState :=
  { images := [imgA 1, imgA 2, imgA 3, imgA 4, imgA 5],
    selectedImage := none, renderOrigin := (0, 0), canvasPixelsPerMeter := 1 }

/-- A camera state for the zoom-anchoring witness. -/
def wheelStateEx : ComposerState :=
  { images := [], selectedImage := none, renderOrigin := (10, 5),
    canvasPixelsPerMeter := 50 }

/-- Two images with distinct ids, the first selected, for the delete
witness. -/
def deleteStateEx : ComposerState :=
  { images := [imgA 1, imgA 2], selectedImage := some (imgA 1),
    renderOrigin := (0, 0), canvasPixelsPerMeter := 50 }

/-! Helper lemmas about `jsFindIndex`. -/

/-- `jsFindIndex` misses exactly when no element satisfies the predicate. -/
theorem jsFindIndex_eq_none_iff {α : Type} {p : α → Bool} {l : List α} :
    jsFindIndex p l = none ↔ ∀ a ∈ l, p a = false := by
  induction l with
  | nil => simp [jsFindIndex]
  | cons a l ih =>
    rw [jsFindIndex]
    by_cases h : p a
    · rw [if_pos h]
      constructor
      · intro hc
        exact absurd hc (by simp)
      · intro hall
        have h2 := hall a (List.mem_cons_self a l)
        rw [h] at h2
        exact absurd h2 (by simp)
    · rw [if_neg h]
      rw [Option.map_eq_none', ih]
      constructor
      · intro hall b hb
        rcases List.mem_cons.mp hb with rfl | hb2
        · exact Bool.eq_false_iff.mpr h
        · exact hall b hb2
      · intro hall b hb
        exact hall b (List.mem_cons_of_mem a hb)

/-- When `jsFindIndex` hits index `i`, the element there is the first match
(`find?`), and splicing it out is `eraseP`. -/
theorem jsFindIndex_spec {α : Type} [Inhabited α] {p : α → Bool} {l : List α}
    {i : ℕ} (h : jsFindIndex p l = some i) :
    l.find? p = some (l.getD i default) ∧ l.eraseIdx i = l.eraseP p := by
  induction l generalizing i with
  | nil => simp [jsFindIndex] at h
  | cons a l ih =>
    by_cases ha : p a
    · rw [jsFindIndex, if_pos ha] at h
      have hi : i = 0 := (Option.some.injEq 0 i).mp h |>.symm
      subst hi
      exact ⟨List.find?_cons_of_pos l ha,
        (List.eraseP_cons_of_pos ha).symm⟩
    · rw [jsFindIndex, if_neg ha] at h
      cases hj : jsFindIndex p l with
      | none =>
        rw [hj] at h
        exact absurd h (by simp)
      | some j =>
        rw [hj] at h
        have hi : i = j + 1 := by
          have := (Option.some.injEq (j + 1) i).mp h
          exact this.symm
        subst hi
        obtain ⟨h1, h2⟩ := ih hj
        refine ⟨?_, ?_⟩
        · rw [List.find?_cons_of_neg l ha]
          simpa using h1
        · rw [List.eraseP_cons_of_neg ha]
          simpa using h2

/-- Unfolding lemma for `snapLine` with shift up and a start present: the
mismatch check, then the direction choice. Holds by definitional
unfolding. -/
theorem snapLine_eval (start cursor : Coordinate) :
    snapLine false (some start) cursor =
      if start.system ≠ cursor.system then ⟨cursor, true⟩
      else if |cursor.x - start.x| > |cursor.y - start.y| then
        ⟨⟨cursor.system, cursor.x, start.y⟩, false⟩
      else ⟨⟨cursor.system, start.x, cursor.y⟩, false⟩ := rfl

/-! Claim theorems. -/

/-- C1: the claimed crop invariant fails on the code. From the valid crop
state (xMin 50, xMax 100, yMin 10, yMax 90) with the `xMax` handle held, a
single pointer-move to canvas x = 20 (scale factor 1) sets
`xMax := max(20, yMin) = 20 < xMin = 50` — the handler clamps `xMax`
against the opposite axis's `yMin` instead of `xMin`, so the rectangle
inverts and `xMin ≤ xMax` is violated after one update. -/
theorem cropMouseMove_inverts_rectangle :
    cropStateEx.xMin ≤ cropStateEx.xMax ∧ cropStateEx.yMin ≤ cropStateEx.yMax ∧
    (cropMouseMove 1 cropStateEx 20 40).xMax <
      (cropMouseMove 1 cropStateEx 20 40).xMin := by
  refine ⟨by norm_num [cropStateEx], by norm_num [cropStateEx], ?_⟩
  have h : cropMouseMove 1 cropStateEx 20 40 =
      { xMin := 50, xMax := max ((20 : ℚ) / 1) 10, yMin := 10, yMax := 90,
        currentCropHandles := [CropHandle.xMax] } := rfl
  rw [h]
  norm_num

/-- C7: with matching coordinate systems and shift not pressed, `snapLine`
snaps horizontally (keeping `cursor.x`, taking `start.y`) exactly when
`|dx| > |dy|`, else vertically; with shift pressed or no start it returns
the cursor unchanged. The §8 instances: from start (10,10), cursor (10,50)
stays (10,50) and cursor (50,10) stays (50,10). -/
theorem snapLine_spec :
    (∀ start cursor : Coordinate, start.system = cursor.system →
        snapLine false (some start) cursor =
          if |cursor.x - start.x| > |cursor.y - start.y| then
            ⟨⟨cursor.system, cursor.x, start.y⟩, false⟩
          else ⟨⟨cursor.system, start.x, cursor.y⟩, false⟩) ∧
    (∀ (start? : Option Coordinate) (cursor : Coordinate),
        snapLine true start? cursor = ⟨cursor, false⟩) ∧
    (∀ cursor : Coordinate, snapLine false none cursor = ⟨cursor, false⟩) ∧
    snapLine false (some ⟨.image, 10, 10⟩) ⟨.image, 10, 50⟩ =
      ⟨⟨.image, 10, 50⟩, false⟩ ∧
    snapLine false (some ⟨.image, 10, 10⟩) ⟨.image, 50, 10⟩ =
      ⟨⟨.image, 50, 10⟩, false⟩ := by
  have hmain : ∀ start cursor : Coordinate, start.system = cursor.system →
      snapLine false (some start) cursor =
        if |cursor.x - start.x| > |cursor.y - start.y| then
          ⟨⟨cursor.system, cursor.x, start.y⟩, false⟩
        else ⟨⟨cursor.system, start.x, cursor.y⟩, false⟩ := by
    intro start cursor h
    rw [snapLine_eval, if_neg (by simp [h])]
  refine ⟨hmain, fun start? cursor => rfl, fun cursor => rfl, ?_, ?_⟩
  · rw [hmain ⟨.image, 10, 10⟩ ⟨.image, 10, 50⟩ rfl, if_neg (by norm_num)]
  · rw [hmain ⟨.image, 10, 10⟩ ⟨.image, 50, 10⟩ rfl, if_pos (by norm_num)]

/-- C8: completion is gated only on start, end and length being defined:
with length 0 the save button is enabled and `handleSave` still emits a
record (in IEEE arithmetic the resulting `pixelsPerMetre` is infinite or
NaN; no rejection path exists), and a zero-length drawn line emits a record
with the degenerate `pixelsPerMetre = 0`. -/
theorem zero_length_not_rejected :
    (∀ a b : Coordinate,
        saveDisabled
            (.scale { start := some a, endPoint := some b, length := some 0 }) =
          false ∧
        (handleSave
            (.scale
              { start := some a, endPoint := some b,
                length := some 0 })).isSome = true) ∧
    (∀ (a : Coordinate) (l : ℚ),
        handleSave
            (.scale { start := some a, endPoint := some a, length := some l }) =
          some 0) := by
  constructor
  · intro a b
    exact ⟨rfl, rfl⟩
  · intro a l
    simp [handleSave]

/-- C9: a coordinate-system mismatch in `snapLine` does not crash: the
function totally returns the raw cursor coordinate unmodified and records
the `console.error` log. -/
theorem snapLine_mismatch_fallback (start cursor : Coordinate)
    (h : start.system ≠ cursor.system) :
    snapLine false (some start) cursor = ⟨cursor, true⟩ := by
  rw [snapLine_eval, if_pos h]

/-- C2 counterexample: at a concrete composer state with a selected image,
rotate-right, delete, opacity change and relabel each mutate the state but
trigger no persistence write, refuting the claim that every mutating
operation persists. -/
theorem mutating_ops_do_not_persist :
    ((handleRotateRight composerStateEx).1 ≠ composerStateEx ∧
      (handleRotateRight composerStateEx).2 = false) ∧
    ((handleDelete composerStateEx).1 ≠ composerStateEx ∧
      (handleDelete composerStateEx).2 = false) ∧
    ((handleOpacityChange composerStateEx 0).1 ≠ composerStateEx ∧
      (handleOpacityChange composerStateEx 0).2 = false) ∧
    ((handleRename composerStateEx (some "kitchen")).1 ≠ composerStateEx ∧
      (handleRename composerStateEx (some "kitchen")).2 = false) := by
  refine ⟨⟨?_, rfl⟩, ⟨?_, rfl⟩, ⟨?_, rfl⟩, ⟨?_, rfl⟩⟩ <;>
    · intro hc
      have := congrArg ComposerState.images hc
      simp [handleRotateRight, handleDelete, handleOpacityChange, handleRename,
        updateSelectedImage, jsFindIndex, composerStateEx, imgEx] at this

/-- C2 amended: of the claim's listed operations, adding an image and
releasing the mouse button trigger a persistence write as part of the
operation; rotate, opacity change, relabel and delete never do, for every
composer state. -/
theorem persistence_write_policy :
    (∀ (st : ComposerState) (img : RenderableImage),
        (addImageCallback st img).2 = true) ∧
    (∀ st : ComposerState, (handleMouseUp st).2 = true) ∧
    (∀ st : ComposerState, (handleRotateLeft st).2 = false) ∧
    (∀ st : ComposerState, (handleRotateRight st).2 = false) ∧
    (∀ (st : ComposerState) (v : ℚ), (handleOpacityChange st v).2 = false) ∧
    (∀ (st : ComposerState) (s : Option String),
        (handleRename st s).2 = false) ∧
    (∀ st : ComposerState, (handleDelete st).2 = false) := by
  refine ⟨fun _ _ => rfl, fun _ => rfl, fun _ => rfl, fun _ => rfl,
    fun _ _ => rfl, fun _ _ => rfl, fun st => ?_⟩
  cases hsel : st.selectedImage with
  | none => simp [handleDelete, hsel]
  | some sel =>
    cases hidx : jsFindIndex (fun img => img.id == sel.id) st.images with
    | none => simp [handleDelete, hsel, hidx]
    | some idx => simp [handleDelete, hsel, hidx]

/-- C3: with stage scale and start, end, length all defined, `handleSave`
emits `pixelsPerMetre = sqrt((end.x-start.x)^2 + (end.y-start.y)^2) /
length` in image-pixel units; the §8 instance start (0,0), end (300,0),
length 3 emits exactly 100. -/
theorem handleSave_pixelsPerMetre_spec :
    (∀ (a b : Coordinate) (l : ℚ),
        handleSave
            (.scale { start := some a, endPoint := some b, length := some l }) =
          some (Real.sqrt
              (((b.x : ℝ) - (a.x : ℝ)) ^ 2 + ((b.y : ℝ) - (a.y : ℝ)) ^ 2) /
            (l : ℝ))) ∧
    handleSave
        (.scale
          { start := some ⟨.image, 0, 0⟩, endPoint := some ⟨.image, 300, 0⟩,
            length := some 3 }) =
      some 100 := by
  constructor
  · intro a b l
    simp [handleSave, pow_two]
  · have e :
        handleSave
            (.scale
              { start := some ⟨.image, 0, 0⟩, endPoint := some ⟨.image, 300, 0⟩,
                length := some 3 }) =
          some (Real.sqrt
              ((((300 : ℚ) : ℝ) - ((0 : ℚ) : ℝ)) * (((300 : ℚ) : ℝ) - ((0 : ℚ) : ℝ)) +
                (((0 : ℚ) : ℝ) - ((0 : ℚ) : ℝ)) * (((0 : ℚ) : ℝ) - ((0 : ℚ) : ℝ))) /
            ((3 : ℚ) : ℝ)) := rfl
    rw [e]
    norm_num
    rw [show (90000 : ℝ) = 300 ^ 2 by norm_num,
      Real.sqrt_sq (by norm_num : (0 : ℝ) ≤ 300)]
    norm_num

/-- Unfolding lemma for `getImageBoundingBox`: the branch on the rotation.
Holds by definitional unfolding. -/
theorem getImageBoundingBox_eval (img : RenderableImage) :
    getImageBoundingBox img =
      if img.rotationDegrees = 0 ∨ img.rotationDegrees = 180 then
        { xMin := img.x, xMax := img.x + img.cropWidth / img.pixelsPerMetre,
          yMin := img.y, yMax := img.y + img.cropHeight / img.pixelsPerMetre }
      else
        { xMin := img.x + img.cropWidth / img.pixelsPerMetre / 2 -
            img.cropHeight / img.pixelsPerMetre / 2,
          xMax := img.x + img.cropWidth / img.pixelsPerMetre / 2 +
            img.cropHeight / img.pixelsPerMetre / 2,
          yMin := img.y + img.cropHeight / img.pixelsPerMetre / 2 -
            img.cropWidth / img.pixelsPerMetre / 2,
          yMax := img.y + img.cropHeight / img.pixelsPerMetre / 2 +
            img.cropWidth / img.pixelsPerMetre / 2 } := rfl

/-- C4: for rotation 90 or 270 the bounding box is the center-pivoted
dimension swap of the unrotated display size w = cropWidth/pixelsPerMetre,
h = cropHeight/pixelsPerMetre; for 0 or 180 it is position plus size; the
§8 instance (position (0,0), size 4x2, rotation 90) yields
(xMin, xMax, yMin, yMax) = (1, 3, -1, 3). -/
theorem getImageBoundingBox_spec :
    (∀ img : RenderableImage,
        img.rotationDegrees = 90 ∨ img.rotationDegrees = 270 →
          getImageBoundingBox img =
            { xMin := img.x + img.cropWidth / img.pixelsPerMetre / 2 -
                img.cropHeight / img.pixelsPerMetre / 2,
              xMax := img.x + img.cropWidth / img.pixelsPerMetre / 2 +
                img.cropHeight / img.pixelsPerMetre / 2,
              yMin := img.y + img.cropHeight / img.pixelsPerMetre / 2 -
                img.cropWidth / img.pixelsPerMetre / 2,
              yMax := img.y + img.cropHeight / img.pixelsPerMetre / 2 +
                img.cropWidth / img.pixelsPerMetre / 2 }) ∧
    (∀ img : RenderableImage,
        img.rotationDegrees = 0 ∨ img.rotationDegrees = 180 →
          getImageBoundingBox img =
            { xMin := img.x, xMax := img.x + img.cropWidth / img.pixelsPerMetre,
              yMin := img.y,
              yMax := img.y + img.cropHeight / img.pixelsPerMetre }) ∧
    getImageBoundingBox imageEx90 = { xMin := 1, xMax := 3, yMin := -1, yMax := 3 } := by
  refine ⟨?_, ?_, ?_⟩
  · intro img h
    rw [getImageBoundingBox_eval,
      if_neg (by rcases h with h | h <;> simp [h])]
  · intro img h
    rw [getImageBoundingBox_eval, if_pos h]
  · rw [getImageBoundingBox_eval, if_neg (by norm_num [imageEx90])]
    norm_num [imageEx90]

/-- C9 witness: a canvas-space start against an image-space cursor is
returned unmodified with the mismatch logged. -/
theorem snapLine_mismatch_fallback_witness :
    (⟨.canvas, 5, 6⟩ : Coordinate).system ≠
        (⟨.image, 7, 8⟩ : Coordinate).system ∧
    snapLine false (some ⟨.canvas, 5, 6⟩) ⟨.image, 7, 8⟩ =
      ⟨⟨.image, 7, 8⟩, true⟩ :=
  ⟨by decide, snapLine_mismatch_fallback ⟨.canvas, 5, 6⟩ ⟨.image, 7, 8⟩ (by decide)⟩

/-- C5: with a pointer position known, `handleMouseWheel` scales the camera
by the multiplier (which models `1.3^(-deltaY/100)` and is therefore
nonzero), re-anchors the origin as `pointerWorld - (pointerWorld - origin) /
multiplier`, and consequently the world point under the pointer is exactly
unchanged by the zoom. -/
theorem handleMouseWheel_anchors_pointer (st : ComposerState) (m : ℚ × ℚ)
    (multiplier : ℚ) (hmul : multiplier ≠ 0)
    (hppm : st.canvasPixelsPerMeter ≠ 0) :
    (handleMouseWheel st (some m) multiplier).canvasPixelsPerMeter =
      st.canvasPixelsPerMeter * multiplier ∧
    (handleMouseWheel st (some m) multiplier).renderOrigin =
      ((pointerWorld st m).1 -
          ((pointerWorld st m).1 - st.renderOrigin.1) / multiplier,
        (pointerWorld st m).2 -
          ((pointerWorld st m).2 - st.renderOrigin.2) / multiplier) ∧
    pointerWorld (handleMouseWheel st (some m) multiplier) m =
      pointerWorld st m := by
  refine ⟨rfl, rfl, ?_⟩
  have e : pointerWorld (handleMouseWheel st (some m) multiplier) m =
      (m.1 / (st.canvasPixelsPerMeter * multiplier) +
        ((pointerWorld st m).1 -
          ((pointerWorld st m).1 - st.renderOrigin.1) / multiplier),
       m.2 / (st.canvasPixelsPerMeter * multiplier) +
        ((pointerWorld st m).2 -
          ((pointerWorld st m).2 - st.renderOrigin.2) / multiplier)) := rfl
  rw [e]
  unfold pointerWorld
  refine Prod.ext ?_ ?_ <;>
    · field_simp
      ring

/-- C5 witness: at camera origin (10,5) and 50 px/m, a wheel multiplier of
13/10 with the pointer at (100,40) leaves the world point under the pointer
unchanged. -/
theorem handleMouseWheel_anchors_pointer_witness :
    ((13 / 10 : ℚ) ≠ 0 ∧ wheelStateEx.canvasPixelsPerMeter ≠ 0) ∧
    pointerWorld (handleMouseWheel wheelStateEx (some (100, 40)) (13 / 10))
        (100, 40) =
      pointerWorld wheelStateEx (100, 40) :=
  ⟨⟨by norm_num, by norm_num [wheelStateEx]⟩,
    (handleMouseWheel_anchors_pointer wheelStateEx (100, 40) (13 / 10)
      (by norm_num) (by norm_num [wheelStateEx])).2.2⟩

/-- C6: on primary-button press the pointer is converted to world metres and
the ordered sequence is scanned front-to-back: if no bounding box contains
the point the selection is cleared and nothing else changes; otherwise the
first containing image becomes the selection and is promoted to index 0
with the relative order of the others preserved (the new sequence is the
hit consed onto the old sequence with that occurrence removed, camera
untouched). Selecting the 3rd of 5 images yields [3rd, 1st, 2nd, 4th, 5th]
with the 3rd selected. -/
theorem handleMouseDown_selection_spec :
    (∀ (st : ComposerState) (pos : ℚ × ℚ),
        (∀ img ∈ st.images, hitPred st pos img = false) →
          handleMouseDown0 st pos = ({ st with selectedImage := none }, false)) ∧
    (∀ (st : ComposerState) (pos : ℚ × ℚ) (hit : RenderableImage),
        st.images.find? (hitPred st pos) = some hit →
          (handleMouseDown0 st pos).1.selectedImage = some hit ∧
          (handleMouseDown0 st pos).1.images =
            hit :: st.images.eraseP (hitPred st pos) ∧
          (handleMouseDown0 st pos).1.renderOrigin = st.renderOrigin ∧
          (handleMouseDown0 st pos).1.canvasPixelsPerMeter =
            st.canvasPixelsPerMeter) ∧
    (handleMouseDown0 fiveImageStateEx (61 / 2, 1 / 2)).1.images =
      [imgA 3, imgA 1, imgA 2, imgA 4, imgA 5] ∧
    (handleMouseDown0 fiveImageStateEx (61 / 2, 1 / 2)).1.selectedImage =
      some (imgA 3) := by
  have hmiss : ∀ (st : ComposerState) (pos : ℚ × ℚ),
      (∀ img ∈ st.images, hitPred st pos img = false) →
        handleMouseDown0 st pos = ({ st with selectedImage := none }, false) := by
    intro st pos h
    have hn : jsFindIndex (hitPred st pos) st.images = none :=
      jsFindIndex_eq_none_iff.mpr h
    simp only [handleMouseDown0, hn]
  have hhit : ∀ (st : ComposerState) (pos : ℚ × ℚ) (hit : RenderableImage),
      st.images.find? (hitPred st pos) = some hit →
        (handleMouseDown0 st pos).1.selectedImage = some hit ∧
        (handleMouseDown0 st pos).1.images =
          hit :: st.images.eraseP (hitPred st pos) ∧
        (handleMouseDown0 st pos).1.renderOrigin = st.renderOrigin ∧
        (handleMouseDown0 st pos).1.canvasPixelsPerMeter =
          st.canvasPixelsPerMeter := by
    intro st pos hit hfind
    cases hidx : jsFindIndex (hitPred st pos) st.images with
    | none =>
      exfalso
      have hall := jsFindIndex_eq_none_iff.mp hidx
      have hmem := List.mem_of_find?_eq_some hfind
      have hp := List.find?_some hfind
      rw [hall hit hmem] at hp
      exact absurd hp (by simp)
    | some i =>
      obtain ⟨h1, h2⟩ := jsFindIndex_spec hidx
      have hhit2 : hit = st.images.getD i default := by
        rw [hfind] at h1
        exact (Option.some.injEq _ _).mp h1
      by_cases hi : i = 0
      · subst hi
        have e : handleMouseDown0 st pos =
            ({ st with selectedImage := some (st.images.getD 0 default) },
              false) := by
          simp only [handleMouseDown0, hidx, if_true, eq_self_iff_true]
        have hne : st.images ≠ [] := by
          intro hnil
          rw [hnil] at hidx
          exact absurd hidx (by simp [jsFindIndex])
        have hcons : st.images = st.images.getD 0 default :: st.images.eraseIdx 0 := by
          cases hl : st.images with
          | nil => exact absurd hl hne
          | cons a tl => rfl
        refine ⟨by rw [e, hhit2], ?_, by rw [e], by rw [e]⟩
        rw [e]
        show st.images = hit :: st.images.eraseP (hitPred st pos)
        rw [h2, ← hhit2] at hcons
        exact hcons
      · have e : handleMouseDown0 st pos =
            ({ st with
                images := st.images.getD i default :: st.images.eraseIdx i
                selectedImage := some (st.images.getD i default) }, true) := by
          simp only [handleMouseDown0, hidx, if_neg hi]
        exact ⟨by rw [e, hhit2], by rw [e, hhit2, h2], by rw [e], by rw [e]⟩
  refine ⟨hmiss, hhit, ?_⟩
  have hp1 : hitPred fiveImageStateEx (61 / 2, 1 / 2) (imgA 1) = false := by
    norm_num [hitPred, bboxContainsPoint, getImageBoundingBox, pointerWorld,
      imgA, fiveImageStateEx]
  have hp2 : hitPred fiveImageStateEx (61 / 2, 1 / 2) (imgA 2) = false := by
    norm_num [hitPred, bboxContainsPoint, getImageBoundingBox, pointerWorld,
      imgA, fiveImageStateEx]
  have hp3 : hitPred fiveImageStateEx (61 / 2, 1 / 2) (imgA 3) = true := by
    norm_num [hitPred, bboxContainsPoint, getImageBoundingBox, pointerWorld,
      imgA, fiveImageStateEx]
  have hlist : fiveImageStateEx.images =
      [imgA 1, imgA 2, imgA 3, imgA 4, imgA 5] := rfl
  have hfind : fiveImageStateEx.images.find?
      (hitPred fiveImageStateEx (61 / 2, 1 / 2)) = some (imgA 3) := by
    rw [hlist, List.find?_cons_of_neg _ (by rw [hp1]; exact Bool.false_ne_true),
      List.find?_cons_of_neg _ (by rw [hp2]; exact Bool.false_ne_true),
      List.find?_cons_of_pos _ hp3]
  have herase : fiveImageStateEx.images.eraseP
      (hitPred fiveImageStateEx (61 / 2, 1 / 2)) =
      [imgA 1, imgA 2, imgA 4, imgA 5] := by
    rw [hlist, List.eraseP_cons_of_neg (by rw [hp1]; exact Bool.false_ne_true),
      List.eraseP_cons_of_neg (by rw [hp2]; exact Bool.false_ne_true),
      List.eraseP_cons_of_pos hp3]
  obtain ⟨hsel, himgs, -, -⟩ :=
    hhit fiveImageStateEx (61 / 2, 1 / 2) (imgA 3) hfind
  rw [herase] at himgs
  exact ⟨himgs, hsel⟩

/-- With pairwise-distinct ids (the data model's invariant), after erasing
the first image whose id matches, no remaining image matches that id. -/
theorem eraseP_no_second_match {l : List RenderableImage} {A : ℤ}
    (h : List.Pairwise (fun a b => a.id ≠ b.id) l) :
    ∀ x ∈ l.eraseP (fun img => img.id == A), (x.id == A) = false := by
  induction l with
  | nil => simp
  | cons a l ih =>
    rw [List.pairwise_cons] at h
    obtain ⟨ha, hl⟩ := h
    by_cases hpa : (a.id == A) = true
    · have hred : List.eraseP (fun img => img.id == A) (a :: l) = l :=
        List.eraseP_cons_of_pos hpa
      rw [hred]
      intro x hx
      have hne : a.id ≠ x.id := ha x hx
      have haA : a.id = A := by simpa using hpa
      rw [haA] at hne
      exact beq_eq_false_iff_ne.mpr (Ne.symm hne)
    · have hred : List.eraseP (fun img => img.id == A) (a :: l) =
          a :: List.eraseP (fun img => img.id == A) l :=
        List.eraseP_cons_of_neg hpa
      rw [hred]
      intro x hx
      rcases List.mem_cons.mp hx with rfl | hx2
      · exact Bool.eq_false_iff.mpr hpa
      · exact ih hl x hx2

/-- C10: with an image selected and ids pairwise distinct, delete removes
exactly the first image whose id equals the selection's id, leaves the
selection reference unchanged (still the removed record), leaves every
remaining image unchanged and in order (the result is a sublist of the
original), and an immediately repeated delete is a no-op (idempotence). -/
theorem handleDelete_frame_spec (st : ComposerState) (sel : RenderableImage)
    (hsel : st.selectedImage = some sel)
    (hids : List.Pairwise (fun a b => a.id ≠ b.id) st.images) :
    (handleDelete st).1.selectedImage = some sel ∧
    (handleDelete st).1.images =
      st.images.eraseP (fun img => img.id == sel.id) ∧
    List.Sublist (handleDelete st).1.images st.images ∧
    handleDelete (handleDelete st).1 = handleDelete st := by
  cases hidx : jsFindIndex (fun img => img.id == sel.id) st.images with
  | none =>
    have e : handleDelete st = (st, false) := by
      simp only [handleDelete, hsel, hidx]
    have hall := jsFindIndex_eq_none_iff.mp hidx
    have herase : st.images.eraseP (fun img => img.id == sel.id) = st.images := by
      refine List.eraseP_of_forall_not ?_
      intro a hamem
      rw [hall a hamem]
      exact Bool.false_ne_true
    rw [e, herase]
    exact ⟨hsel, rfl, List.Sublist.refl _, e⟩
  | some i =>
    obtain ⟨-, h2⟩ := jsFindIndex_spec hidx
    have e : handleDelete st =
        ({ st with images := st.images.eraseIdx i }, false) := by
      simp only [handleDelete, hsel, hidx]
    have hnone : jsFindIndex (fun img => img.id == sel.id)
        (st.images.eraseP (fun img => img.id == sel.id)) = none :=
      jsFindIndex_eq_none_iff.mpr (eraseP_no_second_match hids)
    refine ⟨by rw [e]; exact hsel, by rw [e]; exact h2, ?_, ?_⟩
    · rw [e]
      show List.Sublist (st.images.eraseIdx i) st.images
      rw [h2]
      exact List.eraseP_sublist _
    · rw [e]
      simp only [handleDelete, hsel, h2, hnone]

/-- C10 witness: with two images of ids 1 and 2 and the first selected,
delete removes it, keeps the selection pointing at the removed record,
keeps the second image intact, and a second delete changes nothing. -/
theorem handleDelete_frame_spec_witness :
    (deleteStateEx.selectedImage = some (imgA 1) ∧
      List.Pairwise (fun a b => a.id ≠ b.id) deleteStateEx.images) ∧
    ((handleDelete deleteStateEx).1.selectedImage = some (imgA 1) ∧
      (handleDelete deleteStateEx).1.images =
        deleteStateEx.images.eraseP (fun img => img.id == (imgA 1).id) ∧
      List.Sublist (handleDelete deleteStateEx).1.images deleteStateEx.images ∧
      handleDelete (handleDelete deleteStateEx).1 = handleDelete deleteStateEx) :=
  ⟨⟨rfl, by norm_num [deleteStateEx, imgA, List.pairwise_cons]⟩,
    handleDelete_frame_spec deleteStateEx (imgA 1) rfl
      (by norm_num [deleteStateEx, imgA, List.pairwise_cons])⟩

end Floorplans
